import Mathlib

/-!
Verification of the authentication/session lifecycle of the GlobeGenius
frontend (React application), as described in the repository specification.

The embedding below translates, function by function, the JavaScript source:

* `src/frontend/src/services/api.js` — the axios instance ("Authenticated
  Request Pipeline"): request interceptor (bearer-token attachment) and
  response interceptor (401 / >=500 / no-response handling).
* `src/frontend/src/contexts/AuthContext.js` — the "Session Controller":
  `checkAuth`, `login`, `signup`, `logout`, `updateUser`.
* `src/unnamed/part_005` (`services/adminApi.js`) — `AdminApiService.makeRequest`,
  a second, fetch-based request path used by the admin dashboard.
* `src/unnamed/part_003` (`Profile.js`) — `handleSave`, the profile-update flow.

Client-visible side effects (localStorage writes, `window.location.href`
assignments, toast notifications, network calls issued) are recorded in an
explicit event trace so that ordering and "exactly once" properties can be
stated.  Machine state is `St`: the credential store (`localStorage`
`access_token` key), the cached user identity (React `user` state), and the
event trace.  Each network call's outcome is an explicit parameter
(`Outcome`): either a body (2xx) or an axios-style error carrying an optional
response.  JS truthiness of strings (empty string is falsy) is modelled
explicitly wherever the source tests a string with `if (x)` or `x || y`.
-/

/-- A JSON `detail` field as produced by the backend: absent, a plain string,
or (for HTTP 422 validation errors) a field → error-list mapping where each
error object carries a `msg` string. -/
inductive Detail where
  | none
  | str (s : String)
  | fields (fs : List (String × List String))
deriving Repr, DecidableEq

/-- An HTTP error response as seen through axios: `error.response.status` and
`error.response.data.detail`. -/
structure HResp where
  status : Nat
  detail : Detail
deriving Repr, DecidableEq

/-- An axios error: `error.response` is present when the server answered with
a non-2xx status, absent on connectivity failure; `error.request` is present
whenever a request was actually issued. -/
structure ApiError where
  response : Option HResp
  request : Bool
deriving Repr, DecidableEq

/-- The user profile returned by the identity endpoint (`GET /users/me`). -/
structure User where
  email : String
  first_name : Option String
  last_name : Option String
  phone : Option String
  is_admin : Bool
deriving Repr, DecidableEq

/-- The profile-form data submitted by `Profile.handleSave`
(src/unnamed/part_003). -/
structure ProfileForm where
  first_name : String
  last_name : String
  phone : String
  email_notifications : Bool
  sms_notifications : Bool
  notification_frequency : String
deriving Repr, DecidableEq

/-- Observable side effects, recorded in order of occurrence. -/
inductive Ev where
  | loginReq (username password : String)
  | signupReq (email : String)
  | meReq
  | updateReq (form : ProfileForm)
  | storeSet (tok : String)
  | storeRemove
  | redirect (url : String)
  | toastErr (msg : String)
  | toastOk (msg : String)
deriving Repr, DecidableEq

/-- Client state: the credential store (`localStorage` key `access_token`),
the cached identity (React `user` state in `AuthProvider`), and the trace of
side effects performed so far. -/
structure St where
  token : Option String
  user : Option User
  events : List Ev
deriving Repr, DecidableEq

/-- The outcome the server produces for one network call. -/
inductive Outcome (α : Type) where
  | ok (body : α)
  | fail (e : ApiError)

/-- Response interceptor of the axios instance
(src/frontend/src/services/api.js, error arm):

    if (error.response?.status === 401) {
      localStorage.removeItem('access_token');
      window.location.href = '/login';
    } else if (error.response?.status >= 500) {
      toast.error('Erreur serveur. Veuillez réessayer plus tard.');
    } else if (!error.response) {
      toast.error('Problème de connexion au serveur.');
    }
    return Promise.reject(error);

When `error.response` is absent the two status tests are false
(`undefined === 401`, `undefined >= 500`), which the match below reflects. -/
def interceptFailure (e : ApiError) (st : St) : St :=
  match e.response with
  | some r =>
      if r.status = 401 then
        { st with token := Option.none
                  events := st.events ++ [Ev.storeRemove, Ev.redirect "/login"] }
      else if 500 ≤ r.status then
        { st with events := st.events ++ [Ev.toastErr "Erreur serveur. Veuillez réessayer plus tard."] }
      else st
  | Option.none =>
      { st with events := st.events ++ [Ev.toastErr "Problème de connexion au serveur."] }

/-- One call through the axios instance: a 2xx response passes through the
response interceptor unchanged; an error triggers the interceptor's side
effects and the promise rejects with the original error. -/
def apiCall {α : Type} (out : Outcome α) (st : St) : Except ApiError α × St :=
  match out with
  | Outcome.ok b => (Except.ok b, st)
  | Outcome.fail e => (Except.error e, interceptFailure e st)

/-- `headers[k] = v` on a JS object, modelled on an association list:
replaces the first binding of `k` or appends one. -/
def setHeader (k v : String) : List (String × String) → List (String × String)
  | [] => [(k, v)]
  | (k', v') :: rest => if k' = k then (k, v) :: rest else (k', v') :: setHeader k v rest

/-- `headers[k]` lookup on a JS object. -/
def getHeader (k : String) : List (String × String) → Option String
  | [] => Option.none
  | (k', v) :: rest => if k' = k then some v else getHeader k rest

/-- Request interceptor of the axios instance
(src/frontend/src/services/api.js):

    const token = localStorage.getItem('access_token');
    if (token) {
      config.headers.Authorization = `Bearer ${token}`;
    }

`if (token)` is JS truthiness: `null` and the empty string both skip the
assignment. -/
def requestInterceptor (token : Option String) (headers : List (String × String)) :
    List (String × String) :=
  match token with
  | some t => if t = "" then headers else setHeader "Authorization" ("Bearer " ++ t) headers
  | Option.none => headers

/-- Header construction of `AdminApiService.makeRequest`
(src/unnamed/part_005):

    const token = localStorage.getItem('access_token');
    const config = {
      headers: {
        'Content-Type': 'application/json',
        'Authorization': `Bearer ${token}`,
        ...options.headers,
      },
      ...options,
    };

The `Authorization` header is attached unconditionally; when no token is
stored, the template literal stringifies `null`, producing `"Bearer null"`.
The trailing `...options` spread re-assigns `config.headers` to
`options.headers` whenever the caller supplied one (discarding the merged
object); `optHeaders = Option.none` models a call without a `headers`
option, which is how every call site in the repository invokes it. -/
def adminRequestHeaders (token : Option String)
    (optHeaders : Option (List (String × String))) : List (String × String) :=
  let base := [("Content-Type", "application/json"),
               ("Authorization", "Bearer " ++ (match token with
                                               | some t => t
                                               | Option.none => "null"))]
  let merged := (optHeaders.getD []).foldl (fun hs p => setHeader p.1 p.2 hs) base
  match optHeaders with
  | some h => h
  | Option.none => merged

/-- `error.response.data?.detail` read as a string, as the login error
handler does with `... || fallback`: only a string detail is usable. -/
def detailString : Detail → Option String
  | Detail.str s => some s
  | _ => Option.none

/-- Message selection of the `catch` arm of `AuthContext.login`
(src/frontend/src/contexts/AuthContext.js):

    let message = 'Erreur de connexion';
    if (error.response) {
      if (error.response.status === 400) {
        message = error.response.data?.detail || 'Email ou mot de passe incorrect';
      } else if (error.response.status === 401) {
        message = 'Authentification échouée';
      } else if (error.response.status >= 500) {
        message = 'Erreur serveur, veuillez réessayer plus tard';
      }
    } else if (error.request) {
      message = 'Impossible de contacter le serveur';
    }

The `|| fallback` on the 400 branch fires when `detail` is absent, not a
string, or the empty string (falsy). -/
def loginFailureMessage (e : ApiError) : String :=
  match e.response with
  | some r =>
      if r.status = 400 then
        match detailString r.detail with
        | some s => if s = "" then "Email ou mot de passe incorrect" else s
        | Option.none => "Email ou mot de passe incorrect"
      else if r.status = 401 then "Authentification échouée"
      else if 500 ≤ r.status then "Erreur serveur, veuillez réessayer plus tard"
      else "Erreur de connexion"
  | Option.none =>
      if e.request then "Impossible de contacter le serveur" else "Erreur de connexion"

/-- Result of `login` / `signup` in `AuthContext`: the returned object
`{ success, user?, error?, statusCode? }`. -/
structure AuthResult where
  success : Bool
  user : Option User
  error : Option String
  statusCode : Option Nat
deriving Repr, DecidableEq

/-- `AuthContext.login` (src/frontend/src/contexts/AuthContext.js).
`credOut` is the outcome of `authAPI.login` (the form-encoded credential
submission, whose 200 body carries `access_token`); `meOut` the outcome of
`userAPI.me()`.  Both go through the axios pipeline (`apiCall`).  The source:

    const response = await authAPI.login(email, password);
    const { access_token } = response.data;
    localStorage.setItem('access_token', access_token);
    const userResponse = await userAPI.me();
    setUser(userResponse.data);
    toast.success('Connexion réussie !');
    return { success: true, user: userResponse.data };

with the `catch` arm selecting `loginFailureMessage`, toasting it, and
returning `{ success: false, error: message }`. -/
def login (email password : String) (credOut : Outcome String) (meOut : Outcome User)
    (st : St) : AuthResult × St :=
  let st0 : St := { st with events := st.events ++ [Ev.loginReq email password] }
  match apiCall credOut st0 with
  | (Except.error e, st1) =>
      let msg := loginFailureMessage e
      (⟨false, Option.none, some msg, Option.none⟩,
       { st1 with events := st1.events ++ [Ev.toastErr msg] })
  | (Except.ok tok, st1) =>
      let st2 : St := { st1 with token := some tok
                                 events := st1.events ++ [Ev.storeSet tok] }
      let st3 : St := { st2 with events := st2.events ++ [Ev.meReq] }
      match apiCall meOut st3 with
      | (Except.error e, st4) =>
          let msg := loginFailureMessage e
          (⟨false, Option.none, some msg, Option.none⟩,
           { st4 with events := st4.events ++ [Ev.toastErr msg] })
      | (Except.ok u, st4) =>
          (⟨true, some u, Option.none, Option.none⟩,
           { st4 with user := some u
                      events := st4.events ++ [Ev.toastOk "Connexion réussie !"] })

/-- Message selection of the `catch` arm of `AuthContext.signup`
(src/frontend/src/contexts/AuthContext.js):

    let message = 'Erreur lors de l'inscription';
    if (error.response) {
      if (statusCode === 400) {
        if (error.response.data?.detail === "A user with this email already exists") {
          message = "Un utilisateur avec cet email existe déjà";
        } else {
          message = error.response.data?.detail || 'Données invalides';
        }
      } else if (statusCode === 422) {
        message = 'Format de données incorrect';
        const firstError = Object.values(error.response.data?.detail || {})[0];
        if (Array.isArray(firstError) && firstError.length > 0) {
          message = firstError[0].msg || message;
        }
      } else if (statusCode === 0 || !statusCode) {
        message = 'Problème de connexion au serveur';
      }
    }

For 422, `Object.values` of the field→error-list mapping yields the lists in
field order; the first list, when nonempty, supplies `firstError[0].msg`
(with the generic fallback when that `msg` is the empty string, via `||`).
A string or absent `detail` leaves the generic 422 message (values of a
string are its characters, not arrays). -/
def signupFailureMessage (e : ApiError) : String :=
  match e.response with
  | some r =>
      if r.status = 400 then
        if r.detail = Detail.str "A user with this email already exists" then
          "Un utilisateur avec cet email existe déjà"
        else
          match detailString r.detail with
          | some s => if s = "" then "Données invalides" else s
          | Option.none => "Données invalides"
      else if r.status = 422 then
        match r.detail with
        | Detail.fields ((_, m :: _) :: _) =>
            if m = "" then "Format de données incorrect" else m
        | _ => "Format de données incorrect"
      else if r.status = 0 then "Problème de connexion au serveur"
      else "Erreur lors de l\x27inscription"
  | Option.none => "Erreur lors de l\x27inscription"

/-- `AuthContext.signup` (src/frontend/src/contexts/AuthContext.js):

    const response = await authAPI.signup(userData);
    const newUser = response.data;
    const loginResult = await login(userData.email, userData.password);
    if (loginResult.success) {
      toast.success('Compte créé avec succès !');
      return { success: true, user: newUser };
    }
    return loginResult;

with the `catch` arm toasting `signupFailureMessage` and returning
`{ success: false, error: message, statusCode }` where
`statusCode = error.response?.status`.  `credOut`/`meOut` are the outcomes of
the two calls the nested `login` would make; they are unused when account
creation fails. -/
def signup (email password : String) (signupOut : Outcome User)
    (credOut : Outcome String) (meOut : Outcome User) (st : St) : AuthResult × St :=
  let st0 : St := { st with events := st.events ++ [Ev.signupReq email] }
  match apiCall signupOut st0 with
  | (Except.ok newUser, st1) =>
      let lr := login email password credOut meOut st1
      if lr.1.success then
        (⟨true, some newUser, Option.none, Option.none⟩,
         { lr.2 with events := lr.2.events ++ [Ev.toastOk "Compte créé avec succès !"] })
      else lr
  | (Except.error e, st1) =>
      let msg := signupFailureMessage e
      (⟨false, Option.none, some msg, e.response.map HResp.status⟩,
       { st1 with events := st1.events ++ [Ev.toastErr msg] })

/-- `AuthContext.logout` (src/frontend/src/contexts/AuthContext.js):

    localStorage.removeItem('access_token');
    setUser(null);
    toast.success('Déconnexion réussie');

Purely local: no network call is made. -/
def logout (st : St) : St :=
  { st with token := Option.none
            user := Option.none
            events := st.events ++ [Ev.storeRemove, Ev.toastOk "Déconnexion réussie"] }

/-- `AuthContext.updateUser`: `(updatedUser) => setUser(updatedUser)` —
replaces the cached identity wholesale with its argument. -/
def updateUser (u : User) (st : St) : St :=
  { st with user := some u }

/-- `AuthContext.checkAuth` (src/frontend/src/contexts/AuthContext.js):

    const token = localStorage.getItem('access_token');
    if (token) {
      try {
        const response = await userAPI.me();
        setUser(response.data);
      } catch (error) {
        localStorage.removeItem('access_token');
      }
    }
    setLoading(false);

`if (token)` is JS truthiness (empty string skips the fetch).  The `catch`
removes the token on ANY failure of the identity fetch, after the response
interceptor has already run its own side effects. -/
def checkAuth (meOut : Outcome User) (st : St) : St :=
  match st.token with
  | Option.none => st
  | some t =>
      if t = "" then st
      else
        let st1 : St := { st with events := st.events ++ [Ev.meReq] }
        match apiCall meOut st1 with
        | (Except.ok u, st2) => { st2 with user := some u }
        | (Except.error _, st2) =>
            { st2 with token := Option.none
                       events := st2.events ++ [Ev.storeRemove] }

/-- `Profile.handleSave` (src/unnamed/part_003):

    const response = await userAPI.updateProfile(formData);
    updateUser(response.data);
    setIsEditing(false);
    toast.success('Profil mis à jour avec succès !');

with the `catch` arm toasting 'Erreur lors de la mise à jour du profil'.
The Boolean result records whether the save succeeded (editing closed). -/
def handleSave (formData : ProfileForm) (updOut : Outcome User) (st : St) : Bool × St :=
  let st0 : St := { st with events := st.events ++ [Ev.updateReq formData] }
  match apiCall updOut st0 with
  | (Except.ok echoed, st1) =>
      (true, { updateUser echoed st1 with
               events := st1.events ++ [Ev.toastOk "Profil mis à jour avec succès !"] })
  | (Except.error _, st1) =>
      (false, { st1 with events := st1.events ++ [Ev.toastErr "Erreur lors de la mise à jour du profil"] })

/-- Several calls failing in sequence on the single-threaded event loop:
each error runs the response interceptor in turn. -/
def runInterceptors (errs : List ApiError) (st : St) : St :=
  errs.foldl (fun s e => interceptFailure e s) st

/-- Number of forced navigations (`window.location.href` assignments) in a
trace. -/
def redirectCount (evs : List Ev) : Nat :=
  (evs.filter fun e => match e with | Ev.redirect _ => true | _ => false).length

/-- Number of `localStorage.removeItem('access_token')` invocations in a
trace. -/
def removeCount (evs : List Ev) : Nat :=
  (evs.filter fun e => match e with | Ev.storeRemove => true | _ => false).length

/-- Network calls issued, as recorded in the trace. -/
def isNetworkEv : Ev → Bool
  | Ev.loginReq _ _ => true
  | Ev.signupReq _ => true
  | Ev.meReq => true
  | Ev.updateReq _ => true
  | _ => false

/-- A fresh client: empty credential store, no cached identity, empty trace. -/
def emptySt : St := ⟨Option.none, Option.none, []⟩

/-- A sample profile, used to instantiate witnesses. -/
def sampleUser : User :=
  ⟨"admin@example.com", some "Ada", Option.none, Option.none, true⟩

/-- A sample profile form, used to instantiate witnesses. -/
def sampleForm : ProfileForm := ⟨"Ada", "L", "", true, false, "instant"⟩

/-- The axios error for an HTTP 400 response whose body is
`detail: "A user with this email already exists"` (duplicate-email signup). -/
def duplicateEmailFailure : ApiError :=
  ⟨some ⟨400, Detail.str "A user with this email already exists"⟩, true⟩

/-- The axios error for a bare HTTP 401 response. -/
def err401 : ApiError := ⟨some ⟨401, Detail.none⟩, true⟩

/-- The response interceptor never touches the cached identity. -/
theorem interceptFailure_user (e : ApiError) (st : St) :
    (interceptFailure e st).user = st.user := by
  unfold interceptFailure
  rcases e.response with _ | r
  · rfl
  · dsimp only
    split
    · rfl
    · split <;> rfl

/-- The response interceptor leaves the credential store alone unless the
status is exactly 401. -/
theorem interceptFailure_token_of_ne401 (e : ApiError) (st : St)
    (h : ∀ r, e.response = some r → r.status ≠ 401) :
    (interceptFailure e st).token = st.token := by
  unfold interceptFailure
  rcases he : e.response with _ | r
  · rfl
  · dsimp only
    rw [if_neg (h r he)]
    split <;> rfl

/-- C1: the response interceptor's failure handling.  On a 401 it removes the
stored token and forces navigation to the login view; on a status >= 500 it
surfaces the generic server-error toast and neither clears the store nor
redirects; with no response at all it surfaces the distinct
cannot-reach-server toast and changes no state; and in every failure case the
call rejects with the original error. -/
theorem pipeline_failure_semantics (e : ApiError) (st : St) :
    (∀ r, e.response = some r → r.status = 401 →
        (interceptFailure e st).token = Option.none ∧
        (interceptFailure e st).user = st.user ∧
        (interceptFailure e st).events =
          st.events ++ [Ev.storeRemove, Ev.redirect "/login"]) ∧
    (∀ r, e.response = some r → 500 ≤ r.status →
        (interceptFailure e st).token = st.token ∧
        (interceptFailure e st).user = st.user ∧
        (interceptFailure e st).events =
          st.events ++ [Ev.toastErr "Erreur serveur. Veuillez réessayer plus tard."]) ∧
    (e.response = Option.none →
        (interceptFailure e st).token = st.token ∧
        (interceptFailure e st).user = st.user ∧
        (interceptFailure e st).events =
          st.events ++ [Ev.toastErr "Problème de connexion au serveur."]) ∧
    (∀ (α : Type), (apiCall (α := α) (Outcome.fail e) st).1 = Except.error e) := by
  refine ⟨?_, ?_, ?_, fun α => rfl⟩
  · intro r hr h401
    simp [interceptFailure, hr, h401]
  · intro r hr h500
    have hne : ¬ r.status = 401 := by omega
    simp [interceptFailure, hr, hne, h500]
  · intro hr
    simp [interceptFailure, hr]

/-- Witness for C1: one concrete error per failure class. -/
theorem pipeline_failure_semantics_witness :
    (interceptFailure err401 ⟨some "tok", Option.none, []⟩).token = Option.none ∧
    (interceptFailure ⟨some ⟨503, Detail.none⟩, true⟩ ⟨some "tok", Option.none, []⟩).token
      = some "tok" ∧
    (interceptFailure ⟨Option.none, true⟩ ⟨some "tok", Option.none, []⟩).token
      = some "tok" :=
  ⟨((pipeline_failure_semantics err401 ⟨some "tok", Option.none, []⟩).1
      ⟨401, Detail.none⟩ rfl rfl).1,
   ((pipeline_failure_semantics ⟨some ⟨503, Detail.none⟩, true⟩
      ⟨some "tok", Option.none, []⟩).2.1 ⟨503, Detail.none⟩ rfl (by norm_num)).1,
   ((pipeline_failure_semantics ⟨Option.none, true⟩
      ⟨some "tok", Option.none, []⟩).2.2.1 rfl).1⟩

/-- C2: on a 200 login answer, the controller stores the returned token, then
fetches the identity, and reports success exactly when the identity fetch
also succeeds, with the fetched identity both returned and cached; the trace
shows the store write strictly before the identity fetch; when the credential
call fails, the identity-fetch outcome is never consulted (the fetch is not
started) and the outcome is failure; likewise an identity-fetch failure makes
the outcome a failure. -/
theorem login_success_sequencing (email password tok : String) (u : User) (st : St) :
    (login email password (Outcome.ok tok) (Outcome.ok u) st).1 =
      ⟨true, some u, Option.none, Option.none⟩ ∧
    (login email password (Outcome.ok tok) (Outcome.ok u) st).2.user = some u ∧
    (login email password (Outcome.ok tok) (Outcome.ok u) st).2.token = some tok ∧
    (login email password (Outcome.ok tok) (Outcome.ok u) st).2.events =
      st.events ++ [Ev.loginReq email password, Ev.storeSet tok, Ev.meReq,
                    Ev.toastOk "Connexion réussie !"] ∧
    (∀ e meOut1 meOut2,
        login email password (Outcome.fail e) meOut1 st =
        login email password (Outcome.fail e) meOut2 st) ∧
    (∀ e meOut,
        (login email password (Outcome.fail e) meOut st).1.success = false) ∧
    (∀ e, (login email password (Outcome.ok tok) (Outcome.fail e) st).1.success = false) := by
  refine ⟨rfl, rfl, rfl, by simp [login, apiCall], fun e m1 m2 => rfl,
          fun e m => rfl, fun e => rfl⟩

/-- C3: a login rejected with HTTP 400 or 401 yields a failure outcome,
writes no token (the store stays empty), leaves the cached identity absent,
and when the 400 body carries the detail string "Incorrect email or password"
that exact string is the surfaced failure message. -/
theorem login_invalid_credentials (email password : String) (e : ApiError) (r : HResp)
    (meOut : Outcome User) (st : St)
    (hst : st.token = Option.none) (hsu : st.user = Option.none)
    (hr : e.response = some r) (hs : r.status = 400 ∨ r.status = 401) :
    (login email password (Outcome.fail e) meOut st).1.success = false ∧
    (login email password (Outcome.fail e) meOut st).2.token = Option.none ∧
    (login email password (Outcome.fail e) meOut st).2.user = Option.none ∧
    (r.status = 400 → r.detail = Detail.str "Incorrect email or password" →
      (login email password (Outcome.fail e) meOut st).1.error =
        some "Incorrect email or password") := by
  refine ⟨rfl, ?_, ?_, ?_⟩
  · show (interceptFailure e _).token = Option.none
    rcases hs with h400 | h401
    · have hne : ∀ r', e.response = some r' → r'.status ≠ 401 := by
        intro r' hr'
        rw [hr] at hr'
        cases hr'
        omega
      rw [interceptFailure_token_of_ne401 e _ hne]
      exact hst
    · simp [interceptFailure, hr, h401]
  · show (interceptFailure e _).user = Option.none
    rw [interceptFailure_user]
    exact hsu
  · intro h400 hdet
    show some (loginFailureMessage e) = some "Incorrect email or password"
    simp [loginFailureMessage, hr, h400, hdet, detailString]

/-- Witness for C3: the spec's concrete scenario — HTTP 400 with detail
"Incorrect email or password" on a fresh client. -/
theorem login_invalid_credentials_witness :
    (login "x@example.com" "wrong"
       (Outcome.fail ⟨some ⟨400, Detail.str "Incorrect email or password"⟩, true⟩)
       (Outcome.ok sampleUser) emptySt).1.error = some "Incorrect email or password" :=
  (login_invalid_credentials "x@example.com" "wrong"
     ⟨some ⟨400, Detail.str "Incorrect email or password"⟩, true⟩
     ⟨400, Detail.str "Incorrect email or password"⟩
     (Outcome.ok sampleUser) emptySt rfl rfl rfl (Or.inl rfl)).2.2.2 rfl rfl

/-- Counterexample to C4 as stated: on a duplicate-email signup (HTTP 400,
detail "A user with this email already exists") the surfaced failure message
is the French translation, not the exact detail string. -/
theorem signup_duplicate_message_counterexample :
    (signup "x@example.com" "pw" (Outcome.fail duplicateEmailFailure)
       (Outcome.ok "tok") (Outcome.ok sampleUser) emptySt).1.error =
      some "Un utilisateur avec cet email existe déjà" ∧
    (signup "x@example.com" "pw" (Outcome.fail duplicateEmailFailure)
       (Outcome.ok "tok") (Outcome.ok sampleUser) emptySt).1.error ≠
      some "A user with this email already exists" := by
  refine ⟨rfl, ?_⟩
  decide

/-- C4 (amended): a successful account creation is followed immediately by an
auto-login with the same email and password; a duplicate-email HTTP 400
attempts no auto-login (neither of the login outcomes is consulted, and no
login request appears in the trace), and the surfaced failure message is the
fixed translation "Un utilisateur avec cet email existe déjà" of the server's
detail string. -/
theorem signup_autologin_and_duplicate (email password tok : String)
    (newUser u : User) (st : St) :
    (signup email password (Outcome.ok newUser) (Outcome.ok tok) (Outcome.ok u) st).1 =
      ⟨true, some newUser, Option.none, Option.none⟩ ∧
    (signup email password (Outcome.ok newUser) (Outcome.ok tok) (Outcome.ok u) st).2.events =
      st.events ++ [Ev.signupReq email, Ev.loginReq email password, Ev.storeSet tok,
                    Ev.meReq, Ev.toastOk "Connexion réussie !",
                    Ev.toastOk "Compte créé avec succès !"] ∧
    (∀ credOut1 meOut1 credOut2 meOut2,
        signup email password (Outcome.fail duplicateEmailFailure) credOut1 meOut1 st =
        signup email password (Outcome.fail duplicateEmailFailure) credOut2 meOut2 st) ∧
    (∀ credOut meOut,
        (signup email password (Outcome.fail duplicateEmailFailure) credOut meOut st).1 =
          ⟨false, Option.none, some "Un utilisateur avec cet email existe déjà", some 400⟩) ∧
    (∀ credOut meOut,
        (signup email password (Outcome.fail duplicateEmailFailure) credOut meOut st).2.events =
          st.events ++ [Ev.signupReq email,
                        Ev.toastErr "Un utilisateur avec cet email existe déjà"]) := by
  refine ⟨rfl, ?_, fun c1 m1 c2 m2 => rfl, fun c m => rfl, fun c m => ?_⟩
  · simp [signup, login, apiCall]
  · simp [signup, apiCall, interceptFailure, duplicateEmailFailure, signupFailureMessage]

/-- Counterexample to C5 as stated: two calls each answered 401 trigger two
token removals and two redirects, not one of each — the interceptor has no
guard limiting the side effects to the first failing call. -/
theorem concurrent_401_counterexample :
    redirectCount (runInterceptors [err401, err401] ⟨some "tok", Option.none, []⟩).events = 2 ∧
    removeCount (runInterceptors [err401, err401] ⟨some "tok", Option.none, []⟩).events = 2 := by
  exact ⟨rfl, rfl⟩

/-- `redirectCount` distributes over trace concatenation. -/
theorem redirectCount_append (l1 l2 : List Ev) :
    redirectCount (l1 ++ l2) = redirectCount l1 + redirectCount l2 := by
  simp [redirectCount, List.filter_append]

/-- `removeCount` distributes over trace concatenation. -/
theorem removeCount_append (l1 l2 : List Ev) :
    removeCount (l1 ++ l2) = removeCount l1 + removeCount l2 := by
  simp [removeCount, List.filter_append]

/-- C5 (amended): when several calls each receive HTTP 401, EACH of them
removes the stored token and triggers a redirect — n failing calls produce
exactly n removal invocations and n redirects, not one of each; the store
does end up empty (removals after the first are no-ops on the already-empty
store), and the cached identity is untouched by the interceptor. -/
theorem all_401_side_effects (errs : List ApiError) (st : St)
    (h : ∀ e ∈ errs, ∃ r, e.response = some r ∧ r.status = 401) :
    (errs ≠ [] → (runInterceptors errs st).token = Option.none) ∧
    redirectCount (runInterceptors errs st).events =
      redirectCount st.events + errs.length ∧
    removeCount (runInterceptors errs st).events =
      removeCount st.events + errs.length ∧
    (runInterceptors errs st).user = st.user := by
  induction errs generalizing st with
  | nil => simp [runInterceptors]
  | cons e rest ih =>
      obtain ⟨r, hr, h401⟩ := h e (List.mem_cons_self e rest)
      have hstep : interceptFailure e st =
          { st with token := Option.none
                    events := st.events ++ [Ev.storeRemove, Ev.redirect "/login"] } := by
        simp [interceptFailure, hr, h401]
      have hrun : runInterceptors (e :: rest) st =
          runInterceptors rest (interceptFailure e st) := rfl
      have ihr := ih (interceptFailure e st)
        (fun e' he' => h e' (List.mem_cons_of_mem e he'))
      refine ⟨?_, ?_, ?_, ?_⟩
      · intro _
        rw [hrun]
        cases rest with
        | nil =>
            show (interceptFailure e st).token = Option.none
            rw [hstep]
        | cons e' rest' =>
            exact ihr.1 (List.cons_ne_nil e' rest')
      · rw [hrun, ihr.2.1, hstep]
        simp [redirectCount_append, redirectCount]
        omega
      · rw [hrun, ihr.2.2.1, hstep]
        simp [removeCount_append, removeCount]
        omega
      · rw [hrun, ihr.2.2.2, hstep]

/-- Witness for C5 (amended): two concurrent 401s on a client holding a
token. -/
theorem all_401_side_effects_witness :
    (runInterceptors [err401, err401] ⟨some "tok", Option.none, []⟩).token = Option.none ∧
    redirectCount (runInterceptors [err401, err401] ⟨some "tok", Option.none, []⟩).events =
      redirectCount ([] : List Ev) + 2 := by
  have h := all_401_side_effects [err401, err401] ⟨some "tok", Option.none, []⟩
    (by
      intro e he
      have he' : e = err401 := by
        rcases List.mem_cons.mp he with h1 | h1
        · exact h1
        · simpa using h1
      subst he'
      exact ⟨⟨401, Detail.none⟩, rfl, rfl⟩)
  exact ⟨h.1 (by simp), h.2.1⟩

/-- Counterexample to C6 as stated: with an EMPTY credential store, a request
issued by the admin service still carries an Authorization header — the
literal string "Bearer null" — because `AdminApiService.makeRequest`
(src/unnamed/part_005) bypasses the axios pipeline and attaches the header
unconditionally. -/
theorem admin_header_counterexample :
    getHeader "Authorization" (adminRequestHeaders Option.none Option.none) =
      some "Bearer null" := rfl

/-- Setting then reading the same header key yields the written value. -/
theorem getHeader_setHeader (k v : String) (hs : List (String × String)) :
    getHeader k (setHeader k v hs) = some v := by
  induction hs with
  | nil => simp [setHeader, getHeader]
  | cons p rest ih =>
      rcases p with ⟨k', v'⟩
      by_cases h : k' = k
      · simp [setHeader, getHeader, h]
      · simp [setHeader, getHeader, h, ih]

/-- C6 (amended): requests through the shared axios instance carry
`Authorization: Bearer <token>` exactly when the store holds a nonempty
token and are untouched otherwise; but not every outbound call uses that
pipeline — the admin service builds its own fetch requests and ALWAYS
attaches an Authorization header, which degenerates to "Bearer null" when
the store is empty. -/
theorem bearer_header_attachment (token : Option String) (headers : List (String × String)) :
    (∀ t, token = some t → t ≠ "" →
        getHeader "Authorization" (requestInterceptor token headers) =
          some ("Bearer " ++ t)) ∧
    (token = Option.none → requestInterceptor token headers = headers) ∧
    (token = some "" → requestInterceptor token headers = headers) ∧
    (∃ v, getHeader "Authorization" (adminRequestHeaders token Option.none) = some v) ∧
    (token = Option.none →
        getHeader "Authorization" (adminRequestHeaders token Option.none) =
          some "Bearer null") := by
  refine ⟨?_, ?_, ?_, ?_, ?_⟩
  · intro t ht hne
    subst ht
    simp [requestInterceptor, hne, getHeader_setHeader]
  · intro ht; subst ht; rfl
  · intro ht; subst ht; rfl
  · exact ⟨"Bearer " ++ (match token with | some t => t | Option.none => "null"),
           by cases token <;> rfl⟩
  · intro ht; subst ht; rfl

/-- Witness for C6 (amended): a client holding token "abc". -/
theorem bearer_header_attachment_witness :
    getHeader "Authorization" (requestInterceptor (some "abc") []) = some "Bearer abc" :=
  (bearer_header_attachment (some "abc") []).1 "abc" rfl (by decide)

/-- C7: `logout` is purely local and idempotent: in every state it leaves the
credential store empty and the cached identity absent, appends exactly a
removal and a confirmation toast to the trace (so no network call is
issued), a second `logout` changes neither the store nor the cache further,
and on an already-anonymous client the store and cache are left exactly as
they were. -/
theorem logout_idempotent_local (st : St) :
    (logout st).token = Option.none ∧
    (logout st).user = Option.none ∧
    (logout st).events = st.events ++ [Ev.storeRemove, Ev.toastOk "Déconnexion réussie"] ∧
    (logout st).events.filter isNetworkEv = st.events.filter isNetworkEv ∧
    (logout (logout st)).token = (logout st).token ∧
    (logout (logout st)).user = (logout st).user ∧
    (st.token = Option.none → st.user = Option.none →
        (logout st).token = st.token ∧ (logout st).user = st.user) := by
  refine ⟨rfl, rfl, rfl, ?_, rfl, rfl, ?_⟩
  · simp [logout, List.filter_append, isNetworkEv]
  · intro h1 h2
    exact ⟨h1.symm, h2.symm⟩

/-- Witness for C7: `logout` on an already-anonymous fresh client. -/
theorem logout_idempotent_local_witness :
    (logout emptySt).token = emptySt.token ∧ (logout emptySt).user = emptySt.user :=
  (logout_idempotent_local emptySt).2.2.2.2.2.2 rfl rfl

/-- C8: a signup rejected with HTTP 422 whose body is a field → error-list
mapping under `detail` surfaces the `msg` of the first error of the first
field as the failure message (when that `msg` is nonempty, hence truthy),
and reports status code 422. -/
theorem signup_422_first_field_message (email password f m : String)
    (restMsgs : List String) (restFields : List (String × List String))
    (credOut : Outcome String) (meOut : Outcome User) (st : St) (hm : m ≠ "") :
    (signup email password
       (Outcome.fail ⟨some ⟨422, Detail.fields ((f, m :: restMsgs) :: restFields)⟩, true⟩)
       credOut meOut st).1.error = some m ∧
    (signup email password
       (Outcome.fail ⟨some ⟨422, Detail.fields ((f, m :: restMsgs) :: restFields)⟩, true⟩)
       credOut meOut st).1.statusCode = some 422 := by
  constructor
  · show some (signupFailureMessage _) = some m
    simp [signupFailureMessage, hm]
  · rfl

/-- Witness for C8: a validation error on the email field. -/
theorem signup_422_first_field_message_witness :
    (signup "a@b.c" "pw"
       (Outcome.fail ⟨some ⟨422,
          Detail.fields [("email", ["value is not a valid email address"])]⟩, true⟩)
       (Outcome.ok "tok") (Outcome.ok sampleUser) emptySt).1.error =
      some "value is not a valid email address" :=
  (signup_422_first_field_message "a@b.c" "pw" "email" "value is not a valid email address"
     [] [] (Outcome.ok "tok") (Outcome.ok sampleUser) emptySt (by decide)).1

/-- C9: the controller's update operation replaces the whole cached identity
with its argument, and a successful profile save caches exactly the
representation echoed by the server — the cached result does not depend on
the submitted form data (no partial merge), and the credential store is
untouched. -/
theorem identity_update_replaces_cache (u echoed : User) (fd1 fd2 : ProfileForm) (st : St) :
    updateUser u st = { st with user := some u } ∧
    (handleSave fd1 (Outcome.ok echoed) st).1 = true ∧
    (handleSave fd1 (Outcome.ok echoed) st).2.user = some echoed ∧
    (handleSave fd1 (Outcome.ok echoed) st).2.user =
      (handleSave fd2 (Outcome.ok echoed) st).2.user ∧
    (handleSave fd1 (Outcome.ok echoed) st).2.token = st.token :=
  ⟨rfl, rfl, rfl, rfl, rfl⟩

/-- C10: at startup restore, when a token is stored and the identity fetch
fails for ANY reason — connectivity failure or 5xx included, not only 401 —
`checkAuth` removes the token from the store (while leaving the cached
identity as it was). -/
theorem checkAuth_discards_token_on_any_failure (t : String) (e : ApiError) (st : St)
    (ht : st.token = some t) (hne : t ≠ "") :
    (checkAuth (Outcome.fail e) st).token = Option.none ∧
    (checkAuth (Outcome.fail e) st).user = st.user := by
  unfold checkAuth
  rw [ht]
  dsimp only
  rw [if_neg hne]
  exact ⟨rfl, interceptFailure_user e _⟩

/-- Witness for C10: a pure connectivity failure (no response at all) on a
client holding a token — the token is discarded anyway. -/
theorem checkAuth_discards_token_witness :
    (checkAuth (Outcome.fail ⟨Option.none, true⟩)
       ⟨some "tok", Option.none, []⟩).token = Option.none :=
  (checkAuth_discards_token_on_any_failure "tok" ⟨Option.none, true⟩
     ⟨some "tok", Option.none, []⟩ rfl (by decide)).1
